import Mathlib

/-!
Shallow embedding of `src/build.rs` from the `rust-lua53` repository.

The build script is a straight-line pipeline that spawns external
commands (`wget`/`fetch`/`curl`, `tar`, `make`, `gcc`, the compiled glue
helper), checks the filesystem for cache markers, and prints Cargo link
metadata to stdout.  We embed it as explicit state passing:

* `RunState` records, in order, every command spawned so far (`trace`)
  and every line printed to stdout (`output`).
* The filesystem is a list `fs` of paths for which `fs::metadata(p).is_ok()`
  holds.  Within one run of `prebuild` every cache check happens before any
  command that could create the checked path, so a run-constant `fs` is a
  faithful model of a single run.
* The exit status of each spawned command is given by an oracle
  `exec : CommandSpec → Nat`; status `0` is success (Rust's
  `ExitStatus::success`).
* Rust panics and `io::Error` returns both abort the pipeline; they are
  modelled as `Except BuildError` values.  `panic!("Unsupported target OS")`
  is `BuildError.unsupportedPlatform`, `panic!("Unknown target OS")` is
  `BuildError.unknownTarget`, and the `io::Error` built by `run_command`
  is `BuildError.commandFailed` with the exact message string.
* `cfg!(target_os = "...")` in the Rust source is a compile-time test of
  the OS the build script itself runs on; it is modelled by a `host_os`
  string parameter compared against the same literals as the source.
* Environment variables `TARGET` and `CC` are `Option String` parameters;
  `OUT_DIR` (whose absence merely panics in `main`) is a `String`
  parameter.  `fs::create_dir_all` spawns no subprocess, creates no cache
  marker and is modelled as succeeding.
-/

namespace LuaBuild

/-- A spawned external command: `args.head` is the program, the tail the
arguments (matching `run_command`'s `all_args`), together with the optional
working directory. -/
structure CommandSpec where
  args : List String
  cwd : Option String
deriving DecidableEq, Repr

/-- The ways the build script aborts: the `io::Error` produced by
`run_command` (carrying its exact message), the `panic!("Unsupported target OS")`
sites, and the `panic!("Unknown target OS")` site. -/
inductive BuildError where
  | commandFailed (msg : String)
  | unsupportedPlatform
  | unknownTarget
deriving DecidableEq, Repr

/-- Observable effects of a run: commands spawned in order, and lines
printed to stdout in order. -/
structure RunState where
  trace : List CommandSpec
  output : List String
deriving DecidableEq, Repr

/-- The state at process start: nothing spawned, nothing printed. -/
def RunState.init : RunState := ⟨[], []⟩

/-- Append a spawned command to the trace. -/
def RunState.spawn (s : RunState) (c : CommandSpec) : RunState :=
  { s with trace := s.trace ++ [c] }

/-- One `println!`: append a line to stdout. -/
def printLine (s : RunState) (line : String) : RunState :=
  { s with output := s.output ++ [line] }

/-- The message of the `io::Error` built by `run_command` on a non-zero
exit status: `format!("The command\n\t{}\ndid not run successfully.", all_args.join(" "))`. -/
def commandFailureMsg (all_args : List String) : String :=
  "The command\n\t" ++ String.intercalate " " all_args ++ "\ndid not run successfully."

/-- `run_command` from `src/build.rs`: spawn `all_args` in `cwd`, wait for
the status, and return an error carrying the joined invocation text when
the status is non-zero. -/
def run_command (exec : CommandSpec → Nat) (s : RunState) (all_args : List String)
    (cwd : Option String) : RunState × Except BuildError Unit :=
  let spec : CommandSpec := ⟨all_args, cwd⟩
  let s' := s.spawn spec
  if exec spec = 0 then (s', Except.ok ())
  else (s', Except.error (BuildError.commandFailed (commandFailureMsg all_args)))

/-- Sequencing of two fallible steps: the `try!`s of the source. -/
def andThen (r : RunState × Except BuildError Unit)
    (k : RunState → RunState × Except BuildError Unit) :
    RunState × Except BuildError Unit :=
  match r with
  | (s, Except.ok ()) => k s
  | (s, Except.error e) => (s, Except.error e)

/-- The `cfg!(target_os = ...)` chain of `build_lua_native` resolving the
host OS to a Lua make platform string, with `panic!("Unsupported target OS")`
on an unrecognized host. -/
def native_platform (host_os : String) : Except BuildError String :=
  if host_os = "windows" then Except.ok "mingw"
  else if host_os = "macos" then Except.ok "macosx"
  else if host_os = "linux" then Except.ok "linux"
  else if host_os = "freebsd" then Except.ok "freebsd"
  else if host_os = "dragonfly" then Except.ok "bsd"
  else Except.error BuildError.unsupportedPlatform

/-- `build_lua_native` from `src/build.rs`.  Note the source's second test
is `cfg!(any(target_os = "linux", target_os = "freebsd", target_os = "bsd"))`:
it compares the host OS against the literal `"bsd"`, which is not the OS
identifier of any host (DragonFly's is `"dragonfly"`), so a DragonFly host
takes the else branch. -/
def build_lua_native (host_os : String) (exec : CommandSpec → Nat) (dir : String)
    (s : RunState) : RunState × Except BuildError Unit :=
  match native_platform host_os with
  | Except.error e => (s, Except.error e)
  | Except.ok platform =>
    if host_os = "linux" ∨ host_os = "freebsd" ∨ host_os = "bsd" then
      run_command exec s ["make", platform, "MYCFLAGS=-fPIC"] (some dir)
    else
      run_command exec s ["make", platform] (some dir)

/-- Rust's `str::split('-')` on the character list of a string: splits at
every `'-'`, keeping empty segments, and yields `[""]` on the empty input. -/
def splitDash : List Char → List (List Char)
  | [] => [[]]
  | c :: rest =>
    let groups := splitDash rest
    if c = '-' then [] :: groups
    else
      match groups with
      | [] => [[c]]
      | g :: gs => (c :: g) :: gs

/-- `env::var("TARGET").ok().and_then(|var| var.split('-').nth(2).map(|s| s.to_string()))`. -/
def target_os_segment (targetVar : Option String) : Option String :=
  targetVar.bind fun var => (splitDash var.data)[2]?.map fun l => String.mk l

/-- The `match` in `build_lua_target` mapping the OS segment of the target
triple to a Lua make platform string. -/
def target_platform (t : String) : Except BuildError String :=
  match t with
  | "windows" => Except.ok "mingw"
  | "darwin" => Except.ok "macosx"
  | "linux" => Except.ok "linux"
  | "freebsd" => Except.ok "freebsd"
  | "dragonfly" => Except.ok "bsd"
  | _ => Except.error BuildError.unsupportedPlatform

/-- Target resolution of `build_lua_target`: extracting the OS segment
(`panic!("Unknown target OS")` when `TARGET` is absent or has no third
dash-separated segment) and then matching it (`panic!("Unsupported target OS")`
on an unrecognized segment). -/
def resolve_target (targetVar : Option String) : Except BuildError String :=
  match target_os_segment targetVar with
  | none => Except.error BuildError.unknownTarget
  | some t => target_platform t

/-- `build_lua_target` from `src/build.rs`: `CC` defaults to `"gcc"`, the
target triple's third segment selects the platform, and the make invocation
carries `MYCFLAGS=-fPIC` on linux/freebsd/bsd and `CC=<cc>` otherwise. -/
def build_lua_target (targetVar cc_env : Option String) (exec : CommandSpec → Nat)
    (dir : String) (s : RunState) : RunState × Except BuildError Unit :=
  let cc := cc_env.getD "gcc"
  match resolve_target targetVar with
  | Except.error e => (s, Except.error e)
  | Except.ok platform =>
    if platform = "linux" ∨ platform = "freebsd" ∨ platform = "bsd" then
      run_command exec s ["make", platform, "MYCFLAGS=-fPIC"] (some dir)
    else
      run_command exec s ["make", platform, "CC=" ++ cc] (some dir)

/-- `fetch_in_dir`, selected by `#[cfg(...)]` on the host OS: `fetch` on
FreeBSD/DragonFly, `curl -O` on macOS, `wget` everywhere else. -/
def fetch_in_dir (host_os : String) (exec : CommandSpec → Nat) (url : String)
    (cwd : Option String) (s : RunState) : RunState × Except BuildError Unit :=
  if host_os = "freebsd" ∨ host_os = "dragonfly" then
    run_command exec s ["fetch", url] cwd
  else if host_os = "macos" then
    run_command exec s ["curl", "-O", url] cwd
  else
    run_command exec s ["wget", url] cwd

/-- The Lua archive URL fetched by `prebuild`. -/
def lua_url : String := "http://www.lua.org/ftp/lua-5.3.0.tar.gz"

/-- `println!("{:?}", out_dir)`: the `Debug` rendering of the out dir. -/
def debugLine (out_dir : String) : String := "\"" ++ out_dir ++ "\""

/-- The argument list of the glue-helper compilation in `prebuild`; its
program is the hardcoded `"gcc"`. -/
def glue_compile_args (out_dir : String) : List String :=
  ["gcc", "-I", out_dir ++ "/lua-5.3.0/src", "src/glue/glue.c", "-o", out_dir ++ "/glue"]

/-- `println!("cargo:rustc-link-lib=static=lua")`. -/
def cargo_link_lib : String := "cargo:rustc-link-lib=static=lua"

/-- `println!("cargo:rustc-link-search=native={}/lua-5.3.0/src", &out_dir)`. -/
def cargo_link_search (out_dir : String) : String :=
  "cargo:rustc-link-search=native=" ++ out_dir ++ "/lua-5.3.0/src"

/-- The first two blocks of `prebuild`: ensure `liblua.a` (download and
extract the archive when it too is missing, then `make clean` and the
native build) and ensure `glue.rs` (compile `glue.c` with gcc, then run
the glue helper).  Neither block reads `TARGET` or `CC`. -/
def prebuild_stage1 (out_dir host_os : String) (fs : List String)
    (exec : CommandSpec → Nat) : RunState × Except BuildError Unit :=
  let build_dir := out_dir
  let lua_dir := out_dir ++ "/lua-5.3.0"
  let s := RunState.init
  let nativeBlock : RunState × Except BuildError Unit :=
    if (out_dir ++ "/lua-5.3.0/src/liblua.a") ∈ fs then (s, Except.ok ())
    else
      let fetchBlock : RunState × Except BuildError Unit :=
        if (out_dir ++ "/lua-5.3.0.tar.gz") ∈ fs then (s, Except.ok ())
        else
          let s := printLine s (debugLine out_dir)
          andThen (fetch_in_dir host_os exec lua_url (some build_dir) s) fun s =>
            run_command exec s ["tar", "xzf", "lua-5.3.0.tar.gz"] (some build_dir)
      andThen fetchBlock fun s =>
        andThen (run_command exec s ["make", "clean"] (some lua_dir)) fun s =>
          build_lua_native host_os exec lua_dir s
  andThen nativeBlock fun s =>
    if (out_dir ++ "/glue.rs") ∈ fs then (s, Except.ok ())
    else
      andThen (run_command exec s (glue_compile_args out_dir) none) fun s =>
        run_command exec s [out_dir ++ "/glue", out_dir ++ "/glue.rs"] none

/-- `prebuild` from `src/build.rs`: the two cached blocks, then the
unconditional `make clean`, the target build, and the two Cargo
link-metadata lines. -/
def prebuild (out_dir : String) (targetVar cc_env : Option String) (host_os : String)
    (fs : List String) (exec : CommandSpec → Nat) : RunState × Except BuildError Unit :=
  let lua_dir := out_dir ++ "/lua-5.3.0"
  andThen (prebuild_stage1 out_dir host_os fs exec) fun s =>
    andThen (run_command exec s ["make", "clean"] (some lua_dir)) fun s =>
      andThen (build_lua_target targetVar cc_env exec lua_dir s) fun s =>
        let s := printLine s cargo_link_lib
        let s := printLine s (cargo_link_search out_dir)
        (s, Except.ok ())

/-- The oracle under which every spawned command exits with status 0. -/
def exec0 : CommandSpec → Nat := fun _ => 0

deriving instance DecidableEq for Except

/-- A Cargo link-metadata directive line: a stdout line starting with
`"cargo:"`. -/
def isCargoLine (l : String) : Bool := "cargo:".data.isPrefixOf l.data

/-! ### Closed forms of the commands spawned by `prebuild`

These abbreviations name the `CommandSpec`s the pipeline can spawn; they are
used to state the claims and in the closed-form characterization of an
all-successful run, which is proved equal to `prebuild` below. -/

/-- The `make clean` invocation in the Lua source directory. -/
def cleanCmd (out_dir : String) : CommandSpec :=
  ⟨["make", "clean"], some (out_dir ++ "/lua-5.3.0")⟩

/-- The fetch invocation `fetch_in_dir` spawns for the given host. -/
def fetchCmd (host_os out_dir : String) : CommandSpec :=
  if host_os = "freebsd" ∨ host_os = "dragonfly" then ⟨["fetch", lua_url], some out_dir⟩
  else if host_os = "macos" then ⟨["curl", "-O", lua_url], some out_dir⟩
  else ⟨["wget", lua_url], some out_dir⟩

/-- The archive-extraction invocation. -/
def tarCmd (out_dir : String) : CommandSpec :=
  ⟨["tar", "xzf", "lua-5.3.0.tar.gz"], some out_dir⟩

/-- The make invocation `build_lua_native` spawns for the given host and
resolved platform. -/
def nativeBuildCmd (host_os platform out_dir : String) : CommandSpec :=
  ⟨if host_os = "linux" ∨ host_os = "freebsd" ∨ host_os = "bsd" then
      ["make", platform, "MYCFLAGS=-fPIC"]
   else ["make", platform], some (out_dir ++ "/lua-5.3.0")⟩

/-- The glue-helper compilation invocation. -/
def glueCompileCmd (out_dir : String) : CommandSpec :=
  ⟨glue_compile_args out_dir, none⟩

/-- The invocation running the compiled glue helper. -/
def glueRunCmd (out_dir : String) : CommandSpec :=
  ⟨[out_dir ++ "/glue", out_dir ++ "/glue.rs"], none⟩

/-- The make invocation `build_lua_target` spawns for the resolved platform
and `CC` variable. -/
def targetBuildCmd (platform : String) (cc_env : Option String) (out_dir : String) :
    CommandSpec :=
  ⟨if platform = "linux" ∨ platform = "freebsd" ∨ platform = "bsd" then
      ["make", platform, "MYCFLAGS=-fPIC"]
   else ["make", platform, "CC=" ++ cc_env.getD "gcc"], some (out_dir ++ "/lua-5.3.0")⟩

/-- Closed form of `prebuild_stage1` when every spawned command succeeds. -/
def stage1Model (out_dir host_os : String) (fs : List String) :
    RunState × Except BuildError Unit :=
  let pre : RunState :=
    if (out_dir ++ "/lua-5.3.0.tar.gz") ∈ fs then ⟨[], []⟩
    else ⟨[fetchCmd host_os out_dir, tarCmd out_dir], [debugLine out_dir]⟩
  let glueT : List CommandSpec :=
    if (out_dir ++ "/glue.rs") ∈ fs then []
    else [glueCompileCmd out_dir, glueRunCmd out_dir]
  if (out_dir ++ "/lua-5.3.0/src/liblua.a") ∈ fs then (⟨glueT, []⟩, Except.ok ())
  else
    match native_platform host_os with
    | Except.error e => (⟨pre.trace ++ [cleanCmd out_dir], pre.output⟩, Except.error e)
    | Except.ok p =>
      (⟨pre.trace ++ [cleanCmd out_dir, nativeBuildCmd host_os p out_dir] ++ glueT,
        pre.output⟩, Except.ok ())

/-- Closed form of `prebuild` when every spawned command succeeds. -/
def prebuildModel (out_dir : String) (targetVar cc_env : Option String)
    (host_os : String) (fs : List String) : RunState × Except BuildError Unit :=
  match stage1Model out_dir host_os fs with
  | (s, Except.error e) => (s, Except.error e)
  | (s, Except.ok ()) =>
    match resolve_target targetVar with
    | Except.error e => ({ s with trace := s.trace ++ [cleanCmd out_dir] }, Except.error e)
    | Except.ok p =>
      (⟨s.trace ++ [cleanCmd out_dir, targetBuildCmd p cc_env out_dir],
        s.output ++ [cargo_link_lib, cargo_link_search out_dir]⟩, Except.ok ())

lemma prebuild_stage1_eq_model (out_dir host_os : String) (fs : List String) :
    prebuild_stage1 out_dir host_os fs exec0 = stage1Model out_dir host_os fs := by
  unfold prebuild_stage1 stage1Model
  by_cases h1 : (out_dir ++ "/lua-5.3.0/src/liblua.a") ∈ fs <;>
    by_cases h2 : (out_dir ++ "/lua-5.3.0.tar.gz") ∈ fs <;>
      by_cases h3 : (out_dir ++ "/glue.rs") ∈ fs <;>
        by_cases hb : host_os = "linux" ∨ host_os = "freebsd" ∨ host_os = "bsd" <;>
          by_cases hf : host_os = "freebsd" ∨ host_os = "dragonfly" <;>
            by_cases hm : host_os = "macos" <;>
          cases hp : native_platform host_os <;>
            simp_all [andThen, run_command, exec0, fetch_in_dir, native_platform,
              build_lua_native, printLine, RunState.init, RunState.spawn, fetchCmd,
              tarCmd, cleanCmd, nativeBuildCmd, glueCompileCmd, glueRunCmd]

lemma prebuild_eq_model (out_dir : String) (targetVar cc_env : Option String)
    (host_os : String) (fs : List String) :
    prebuild out_dir targetVar cc_env host_os fs exec0 =
      prebuildModel out_dir targetVar cc_env host_os fs := by
  unfold prebuild prebuildModel
  rw [prebuild_stage1_eq_model]
  cases hs : stage1Model out_dir host_os fs with
  | mk s r =>
    cases r with
    | error e => rfl
    | ok u =>
      cases u
      cases ht : resolve_target targetVar with
      | error e =>
        simp [andThen, run_command, exec0, build_lua_target, ht, cleanCmd,
          RunState.spawn]
      | ok p =>
        by_cases hfp : p = "linux" ∨ p = "freebsd" ∨ p = "bsd" <;>
          simp [andThen, run_command, exec0, build_lua_target, ht, hfp, cleanCmd,
            targetBuildCmd, RunState.spawn, printLine]

lemma splitDash_sep (xs ys : List Char) (h : '-' ∉ xs) :
    splitDash (xs ++ '-' :: ys) = xs :: splitDash ys := by
  induction xs with
  | nil => simp [splitDash]
  | cons c xs ih =>
    have hc : ¬ c = '-' := fun e => h (by simp [e])
    have hx : '-' ∉ xs := fun m => h (List.mem_cons_of_mem _ m)
    simp [splitDash, hc, ih hx]

lemma splitDash_nodash (xs : List Char) (h : '-' ∉ xs) : splitDash xs = [xs] := by
  induction xs with
  | nil => simp [splitDash]
  | cons c xs ih =>
    have hc : ¬ c = '-' := fun e => h (by simp [e])
    have hx : '-' ∉ xs := fun m => h (List.mem_cons_of_mem _ m)
    simp [splitDash, hc, ih hx]

/-- C5: the host-OS resolution path maps the fixed set
{windows, macos, linux, freebsd, dragonfly} respectively to the make
platforms {mingw, macosx, linux, freebsd, bsd} (the MinGW, MacOSX, Linux,
FreeBSD, GenericBSD tags), and every host-OS identifier outside that set
fails with the UnsupportedPlatform panic. -/
theorem c5_host_resolution :
    native_platform "windows" = Except.ok "mingw" ∧
    native_platform "macos" = Except.ok "macosx" ∧
    native_platform "linux" = Except.ok "linux" ∧
    native_platform "freebsd" = Except.ok "freebsd" ∧
    native_platform "dragonfly" = Except.ok "bsd" ∧
    ∀ host_os : String,
      host_os ∉ (["windows", "macos", "linux", "freebsd", "dragonfly"] : List String) →
      native_platform host_os = Except.error BuildError.unsupportedPlatform := by
  refine ⟨rfl, rfl, rfl, rfl, rfl, ?_⟩
  intro host h
  simp only [List.mem_cons, List.not_mem_nil, or_false] at h
  push_neg at h
  obtain ⟨h1, h2, h3, h4, h5⟩ := h
  simp [native_platform, h1, h2, h3, h4, h5]

/-- Witness for C5 at the concrete unsupported host `redox`. -/
theorem c5_witness :
    native_platform "redox" = Except.error BuildError.unsupportedPlatform :=
  c5_host_resolution.2.2.2.2.2 "redox" (by decide)

/-- C6 counterexample: on a target string with fewer than three
dash-separated segments the resolution fails with the
`panic!("Unknown target OS")` site, not with the
`panic!("Unsupported target OS")` (UnsupportedPlatform) site the claim
names. -/
theorem c6_counterexample :
    resolve_target (some "foo-bar") = Except.error BuildError.unknownTarget ∧
    resolve_target (some "foo-bar") ≠ Except.error BuildError.unsupportedPlatform := by
  exact ⟨rfl, by decide⟩

/-- C6 (amended): for an `arch-vendor-OS` target the resolution returns the
tag matched from the OS segment — mingw/macosx/linux/freebsd/bsd for
windows/darwin/linux/freebsd/dragonfly, UnsupportedPlatform for any other
OS segment — while a target with fewer than three dash-separated segments
fails with the distinct unknown-target panic. -/
theorem c6_target_resolution (a b c : String)
    (ha : '-' ∉ a.data) (hb : '-' ∉ b.data) (hc : '-' ∉ c.data) :
    resolve_target (some (a ++ "-" ++ b ++ "-" ++ c)) = target_platform c ∧
    target_platform "windows" = Except.ok "mingw" ∧
    target_platform "darwin" = Except.ok "macosx" ∧
    target_platform "linux" = Except.ok "linux" ∧
    target_platform "freebsd" = Except.ok "freebsd" ∧
    target_platform "dragonfly" = Except.ok "bsd" ∧
    (c ∉ (["windows", "darwin", "linux", "freebsd", "dragonfly"] : List String) →
      target_platform c = Except.error BuildError.unsupportedPlatform) ∧
    ∀ t : String, (splitDash t.data).length ≤ 2 →
      resolve_target (some t) = Except.error BuildError.unknownTarget := by
  refine ⟨?_, rfl, rfl, rfl, rfl, rfl, ?_, ?_⟩
  · have hsplit : splitDash (a.data ++ '-' :: (b.data ++ '-' :: c.data)) =
        [a.data, b.data, c.data] := by
      rw [splitDash_sep _ _ ha, splitDash_sep _ _ hb, splitDash_nodash _ hc]
    simp [resolve_target, target_os_segment, String.data_append, hsplit]
  · intro h
    simp only [List.mem_cons, List.not_mem_nil, or_false] at h
    push_neg at h
    obtain ⟨h1, h2, h3, h4, h5⟩ := h
    unfold target_platform
    split <;> simp_all
  · intro t ht
    have hn : (splitDash t.data)[2]? = none := List.getElem?_eq_none ht
    simp [resolve_target, target_os_segment, hn]

/-- Witness for C6's amended theorem at a concrete well-formed triple. -/
theorem c6_witness :
    resolve_target (some ("x86_64" ++ "-" ++ "unknown" ++ "-" ++ "linux")) =
      target_platform "linux" :=
  (c6_target_resolution "x86_64" "unknown" "linux"
    (by decide) (by decide) (by decide)).1

/-- C2 counterexample: the error built by `run_command` does not carry the
exit status — exit statuses 2 and 3 produce identical results, and the
message text contains only the joined invocation. -/
theorem c2_counterexample :
    run_command (fun _ => 2) RunState.init ["make", "linux"] none =
      run_command (fun _ => 3) RunState.init ["make", "linux"] none ∧
    (run_command (fun _ => 2) RunState.init ["make", "linux"] none).2 =
      Except.error (BuildError.commandFailed
        "The command\n\tmake linux\ndid not run successfully.") :=
  ⟨rfl, rfl⟩

/-- C2 (amended): a non-zero exit status yields a CommandFailed error whose
message carries the full invocation text (program followed by all
arguments, space-joined); a zero status yields success.  The exit status
itself is not part of the error. -/
theorem c2_run_command (all_args : List String) (cwd : Option String)
    (exec : CommandSpec → Nat) (s : RunState) :
    (exec ⟨all_args, cwd⟩ ≠ 0 →
      run_command exec s all_args cwd =
        (s.spawn ⟨all_args, cwd⟩,
          Except.error (BuildError.commandFailed
            ("The command\n\t" ++ String.intercalate " " all_args ++
              "\ndid not run successfully.")))) ∧
    (exec ⟨all_args, cwd⟩ = 0 →
      run_command exec s all_args cwd = (s.spawn ⟨all_args, cwd⟩, Except.ok ())) := by
  constructor <;> intro h <;> simp [run_command, commandFailureMsg, h]

/-- Witness for C2's amended theorem at a concrete failing command. -/
theorem c2_witness :
    run_command (fun _ => 1) RunState.init ["make", "clean"] none =
      (RunState.init.spawn ⟨["make", "clean"], none⟩,
        Except.error (BuildError.commandFailed
          ("The command\n\t" ++ String.intercalate " " ["make", "clean"] ++
            "\ndid not run successfully."))) :=
  (c2_run_command ["make", "clean"] none (fun _ => 1) RunState.init).1 (by decide)

/-- C4 counterexample: at the native call site a MacOSX host invokes plain
`make macosx` with no `CC=` argument, and a DragonFly (GenericBSD) host
invokes plain `make bsd` with no position-independent-code flag. -/
theorem c4_counterexample :
    (build_lua_native "macos" exec0 "/d" RunState.init).1.trace =
      [⟨["make", "macosx"], some "/d"⟩] ∧
    (∀ a ∈ (["make", "macosx"] : List String), "CC=".data.isPrefixOf a.data = false) ∧
    (build_lua_native "dragonfly" exec0 "/d" RunState.init).1.trace =
      [⟨["make", "bsd"], some "/d"⟩] ∧
    "MYCFLAGS=-fPIC" ∉ (["make", "bsd"] : List String) := by
  decide

/-- C4 (amended): at the target call site the claim holds as stated —
linux/freebsd/bsd get `MYCFLAGS=-fPIC` and windows/darwin get
`CC=<compiler>` — but at the native call site only Linux and FreeBSD hosts
get `MYCFLAGS=-fPIC`: a DragonFly host runs plain `make bsd` (the source
compares `cfg!` against the never-matching literal `"bsd"`), and
MinGW/MacOSX hosts run plain `make <platform>` with no compiler
forwarding. -/
theorem c4_build_flags (dir cc : String) (exec : CommandSpec → Nat) (s : RunState) :
    (build_lua_native "linux" exec dir s).1.trace =
      s.trace ++ [⟨["make", "linux", "MYCFLAGS=-fPIC"], some dir⟩] ∧
    (build_lua_native "freebsd" exec dir s).1.trace =
      s.trace ++ [⟨["make", "freebsd", "MYCFLAGS=-fPIC"], some dir⟩] ∧
    (build_lua_native "dragonfly" exec dir s).1.trace =
      s.trace ++ [⟨["make", "bsd"], some dir⟩] ∧
    (build_lua_native "windows" exec dir s).1.trace =
      s.trace ++ [⟨["make", "mingw"], some dir⟩] ∧
    (build_lua_native "macos" exec dir s).1.trace =
      s.trace ++ [⟨["make", "macosx"], some dir⟩] ∧
    (build_lua_target (some "a-b-linux") (some cc) exec dir s).1.trace =
      s.trace ++ [⟨["make", "linux", "MYCFLAGS=-fPIC"], some dir⟩] ∧
    (build_lua_target (some "a-b-freebsd") (some cc) exec dir s).1.trace =
      s.trace ++ [⟨["make", "freebsd", "MYCFLAGS=-fPIC"], some dir⟩] ∧
    (build_lua_target (some "a-b-dragonfly") (some cc) exec dir s).1.trace =
      s.trace ++ [⟨["make", "bsd", "MYCFLAGS=-fPIC"], some dir⟩] ∧
    (build_lua_target (some "a-b-windows") (some cc) exec dir s).1.trace =
      s.trace ++ [⟨["make", "mingw", "CC=" ++ cc], some dir⟩] ∧
    (build_lua_target (some "a-b-darwin") (some cc) exec dir s).1.trace =
      s.trace ++ [⟨["make", "macosx", "CC=" ++ cc], some dir⟩] := by
  refine ⟨?_, ?_, ?_, ?_, ?_, ?_, ?_, ?_, ?_, ?_⟩ <;>
    simp only [build_lua_native, build_lua_target, native_platform,
      show resolve_target (some "a-b-linux") = Except.ok "linux" from rfl,
      show resolve_target (some "a-b-freebsd") = Except.ok "freebsd" from rfl,
      show resolve_target (some "a-b-dragonfly") = Except.ok "bsd" from rfl,
      show resolve_target (some "a-b-windows") = Except.ok "mingw" from rfl,
      show resolve_target (some "a-b-darwin") = Except.ok "macosx" from rfl] <;>
    simp [run_command, RunState.spawn] <;> split <;> simp [RunState.spawn]

/-- C8: with no `CC` override the target build falls back to the generic
`gcc`; with `CC=x86_64-w64-mingw32-gcc` and target `x86_64-pc-windows-gnu`
the invocation is `make mingw CC=x86_64-w64-mingw32-gcc` and carries no
position-independent-code flag. -/
theorem c8_cc_override (dir : String) (exec : CommandSpec → Nat) (s : RunState) :
    (build_lua_target (some "x86_64-pc-windows-gnu") none exec dir s).1.trace =
      s.trace ++ [⟨["make", "mingw", "CC=gcc"], some dir⟩] ∧
    (build_lua_target (some "x86_64-pc-windows-gnu") (some "x86_64-w64-mingw32-gcc")
        exec dir s).1.trace =
      s.trace ++ [⟨["make", "mingw", "CC=x86_64-w64-mingw32-gcc"], some dir⟩] ∧
    "MYCFLAGS=-fPIC" ∉
      (["make", "mingw", "CC=x86_64-w64-mingw32-gcc"] : List String) := by
  refine ⟨?_, ?_, by decide⟩ <;>
    simp only [build_lua_target,
      show resolve_target (some "x86_64-pc-windows-gnu") = Except.ok "mingw" from rfl] <;>
    simp [run_command, RunState.spawn] <;> split <;> simp [RunState.spawn]

/-- C1 counterexample: on a cold output directory with target
`aarch64-unknown-redox` (and every command succeeding), the run does end in
the UnsupportedPlatform failure, but only after the fetch (`wget`), the
extraction (`tar`), the clean and native `make`, the glue `gcc`, the glue
helper and the target-stage clean were all spawned. -/
theorem c1_counterexample :
    (prebuild "/out" (some "aarch64-unknown-redox") none "linux" [] exec0).2 =
      Except.error BuildError.unsupportedPlatform ∧
    CommandSpec.mk ["wget", lua_url] (some "/out") ∈
      (prebuild "/out" (some "aarch64-unknown-redox") none "linux" [] exec0).1.trace ∧
    CommandSpec.mk ["tar", "xzf", "lua-5.3.0.tar.gz"] (some "/out") ∈
      (prebuild "/out" (some "aarch64-unknown-redox") none "linux" [] exec0).1.trace ∧
    CommandSpec.mk ["make", "clean"] (some "/out/lua-5.3.0") ∈
      (prebuild "/out" (some "aarch64-unknown-redox") none "linux" [] exec0).1.trace := by
  decide

/-- C1 (amended): an unsupported target-triple OS fails with
UnsupportedPlatform only at the final target-build stage; every earlier
stage runs first.  Even in the best case — all cache markers present — the
target-stage `make clean` subprocess is spawned before the failure. -/
theorem c1_redox_fails_late (out : String) (cc : Option String) (host : String)
    (fs : List String)
    (h1 : (out ++ "/lua-5.3.0/src/liblua.a") ∈ fs)
    (h3 : (out ++ "/glue.rs") ∈ fs) :
    prebuild out (some "aarch64-unknown-redox") cc host fs exec0 =
      (⟨[cleanCmd out], []⟩, Except.error BuildError.unsupportedPlatform) := by
  rw [prebuild_eq_model]
  unfold prebuildModel stage1Model
  simp [h1, h3,
    show resolve_target (some "aarch64-unknown-redox") =
      Except.error BuildError.unsupportedPlatform from rfl]

/-- Witness for C1's amended theorem at a concrete warm cache. -/
theorem c1_witness :
    prebuild "/o" (some "aarch64-unknown-redox") none "linux"
        ["/o/lua-5.3.0/src/liblua.a", "/o/glue.rs"] exec0 =
      (⟨[cleanCmd "/o"], []⟩, Except.error BuildError.unsupportedPlatform) :=
  c1_redox_fails_late "/o" none "linux" ["/o/lua-5.3.0/src/liblua.a", "/o/glue.rs"]
    (by decide) (by decide)

lemma ne_of_head {c d : CommandSpec} (h : c.args.head? ≠ d.args.head?) : c ≠ d :=
  fun e => h (congrArg (fun x => x.args.head?) e)

lemma ne_of_cwd {c d : CommandSpec} (h : c.cwd ≠ d.cwd) : c ≠ d :=
  fun e => h (congrArg CommandSpec.cwd e)

lemma nativeBuildCmd_head (h p o : String) :
    (nativeBuildCmd h p o).args.head? = some "make" := by
  unfold nativeBuildCmd; split <;> rfl

lemma targetBuildCmd_head (p : String) (cc : Option String) (o : String) :
    (targetBuildCmd p cc o).args.head? = some "make" := by
  unfold targetBuildCmd; split <;> rfl

lemma fetchCmd_head (h o : String) :
    (fetchCmd h o).args.head? = some "fetch" ∨
    (fetchCmd h o).args.head? = some "curl" ∨
    (fetchCmd h o).args.head? = some "wget" := by
  unfold fetchCmd; split
  · exact Or.inl rfl
  · split
    · exact Or.inr (Or.inl rfl)
    · exact Or.inr (Or.inr rfl)

lemma fetchCmd_cwd (h o : String) : (fetchCmd h o).cwd = some o := by
  unfold fetchCmd; split
  · rfl
  · split <;> rfl

/-- C3: with all three cache markers (archive, native static library, glue
source) present, a run spawns only the target-stage `make clean` and the
target build, and still emits both link-metadata lines; on a cold directory
(the first run) the same target-stage commands and the same two
link-metadata lines also occur, after the fetch/extract/native-build/glue
stages. -/
theorem c3_idempotence (out : String) (cc : Option String) (host : String)
    (fs : List String)
    (h1 : (out ++ "/lua-5.3.0/src/liblua.a") ∈ fs)
    (h2 : (out ++ "/lua-5.3.0.tar.gz") ∈ fs)
    (h3 : (out ++ "/glue.rs") ∈ fs) :
    prebuild out (some "x86_64-unknown-linux-gnu") cc host fs exec0 =
      (⟨[⟨["make", "clean"], some (out ++ "/lua-5.3.0")⟩,
         ⟨["make", "linux", "MYCFLAGS=-fPIC"], some (out ++ "/lua-5.3.0")⟩],
        [cargo_link_lib, cargo_link_search out]⟩, Except.ok ()) ∧
    prebuild out (some "x86_64-unknown-linux-gnu") cc "linux" [] exec0 =
      (⟨[⟨["wget", lua_url], some out⟩,
         ⟨["tar", "xzf", "lua-5.3.0.tar.gz"], some out⟩,
         ⟨["make", "clean"], some (out ++ "/lua-5.3.0")⟩,
         ⟨["make", "linux", "MYCFLAGS=-fPIC"], some (out ++ "/lua-5.3.0")⟩,
         ⟨glue_compile_args out, none⟩,
         ⟨[out ++ "/glue", out ++ "/glue.rs"], none⟩,
         ⟨["make", "clean"], some (out ++ "/lua-5.3.0")⟩,
         ⟨["make", "linux", "MYCFLAGS=-fPIC"], some (out ++ "/lua-5.3.0")⟩],
        [debugLine out, cargo_link_lib, cargo_link_search out]⟩, Except.ok ()) := by
  rw [prebuild_eq_model, prebuild_eq_model]
  unfold prebuildModel stage1Model
  constructor <;>
    simp [h1, h2, h3, cleanCmd, targetBuildCmd, fetchCmd, tarCmd, nativeBuildCmd,
      glueCompileCmd, glueRunCmd,
      show resolve_target (some "x86_64-unknown-linux-gnu") = Except.ok "linux"
        from rfl,
      show native_platform "linux" = Except.ok "linux" from rfl]

/-- Witness for C3 at a concrete marker-populated directory. -/
theorem c3_witness :
    prebuild "/o" (some "x86_64-unknown-linux-gnu") none "windows"
        ["/o/lua-5.3.0/src/liblua.a", "/o/lua-5.3.0.tar.gz", "/o/glue.rs"] exec0 =
      (⟨[⟨["make", "clean"], some "/o/lua-5.3.0"⟩,
         ⟨["make", "linux", "MYCFLAGS=-fPIC"], some "/o/lua-5.3.0"⟩],
        [cargo_link_lib, cargo_link_search "/o"]⟩, Except.ok ()) :=
  (c3_idempotence "/o" none "windows"
    ["/o/lua-5.3.0/src/liblua.a", "/o/lua-5.3.0.tar.gz", "/o/glue.rs"]
    (by decide) (by decide) (by decide)).1

/-- C10: when the native-library marker is absent (and commands succeed),
the extraction `tar` command is spawned iff the archive marker is absent;
when the archive is present (even with no extracted tree), the fetch
invocation is also skipped and the run proceeds directly to `make clean` in
the (possibly nonexistent) Lua source directory. -/
theorem c10_archive_marker (out host : String) (tv cc : Option String)
    (fs : List String)
    (habs : (out ++ "/lua-5.3.0/src/liblua.a") ∉ fs) :
    (tarCmd out ∈ (prebuild out tv cc host fs exec0).1.trace ↔
      (out ++ "/lua-5.3.0.tar.gz") ∉ fs) ∧
    ((out ++ "/lua-5.3.0.tar.gz") ∈ fs →
      fetchCmd host out ∉ (prebuild out tv cc host fs exec0).1.trace ∧
      (prebuild out tv cc host fs exec0).1.trace.head? = some (cleanCmd out)) := by
  have h_tc : tarCmd out ≠ cleanCmd out := by simp [tarCmd, cleanCmd]
  have h_tn : ∀ p, tarCmd out ≠ nativeBuildCmd host p out := fun p =>
    ne_of_head (by rw [nativeBuildCmd_head]; simp [tarCmd])
  have h_tt : ∀ p, tarCmd out ≠ targetBuildCmd p cc out := fun p =>
    ne_of_head (by rw [targetBuildCmd_head]; simp [tarCmd])
  have h_tg : tarCmd out ≠ glueCompileCmd out :=
    ne_of_cwd (by simp [tarCmd, glueCompileCmd])
  have h_tr : tarCmd out ≠ glueRunCmd out :=
    ne_of_cwd (by simp [tarCmd, glueRunCmd])
  have h_fmake : (fetchCmd host out).args.head? ≠ some "make" := by
    rcases fetchCmd_head host out with h | h | h <;> rw [h] <;> decide
  have h_fc : fetchCmd host out ≠ cleanCmd out :=
    ne_of_head fun e => h_fmake e
  have h_fn : ∀ p, fetchCmd host out ≠ nativeBuildCmd host p out := fun p =>
    ne_of_head fun e => h_fmake (by rw [e]; exact nativeBuildCmd_head host p out)
  have h_ft : ∀ p, fetchCmd host out ≠ targetBuildCmd p cc out := fun p =>
    ne_of_head fun e => h_fmake (by rw [e]; exact targetBuildCmd_head p cc out)
  have h_fg : fetchCmd host out ≠ glueCompileCmd out :=
    ne_of_cwd (by rw [fetchCmd_cwd]; simp [glueCompileCmd])
  have h_fr : fetchCmd host out ≠ glueRunCmd out :=
    ne_of_cwd (by rw [fetchCmd_cwd]; simp [glueRunCmd])
  rw [prebuild_eq_model]
  unfold prebuildModel stage1Model
  by_cases h2 : (out ++ "/lua-5.3.0.tar.gz") ∈ fs <;>
    by_cases h3 : (out ++ "/glue.rs") ∈ fs <;>
      cases hp : native_platform host <;>
        cases ht : resolve_target tv <;>
          simp_all

/-- Witness for C10 at a concrete directory holding only the archive. -/
theorem c10_witness :
    (tarCmd "/o" ∈
        (prebuild "/o" (some "x86_64-unknown-linux-gnu") none "linux"
          ["/o/lua-5.3.0.tar.gz"] exec0).1.trace ↔
      ("/o" ++ "/lua-5.3.0.tar.gz") ∉ (["/o/lua-5.3.0.tar.gz"] : List String)) :=
  (c10_archive_marker "/o" "linux" (some "x86_64-unknown-linux-gnu") none
    ["/o/lua-5.3.0.tar.gz"] (by decide)).1

lemma isCargoLine_search (out : String) : isCargoLine (cargo_link_search out) = true := by
  unfold isCargoLine cargo_link_search
  rw [String.data_append]
  rfl

lemma isCargoLine_debugLine (out : String) : isCargoLine (debugLine out) = false := by
  unfold isCargoLine debugLine
  rw [String.data_append, String.data_append]
  rfl

lemma run_command_output (exec : CommandSpec → Nat) (s : RunState)
    (a : List String) (c : Option String) :
    ((run_command exec s a c).1).output = s.output := by
  simp only [run_command, RunState.spawn]
  split <;> rfl

lemma run_command_ok (exec : CommandSpec → Nat) (s : RunState)
    (a : List String) (c : Option String) (h : exec ⟨a, c⟩ = 0) :
    run_command exec s a c = (s.spawn ⟨a, c⟩, Except.ok ()) := by
  simp [run_command, h]

lemma run_command_fail (exec : CommandSpec → Nat) (s : RunState)
    (a : List String) (c : Option String) (h : ¬ exec ⟨a, c⟩ = 0) :
    run_command exec s a c =
      (s.spawn ⟨a, c⟩,
        Except.error (BuildError.commandFailed (commandFailureMsg a))) := by
  simp [run_command, h]

lemma andThen_output (r : RunState × Except BuildError Unit)
    (k : RunState → RunState × Except BuildError Unit)
    (hk : ∀ s, ((k s).1).output = s.output) :
    ((andThen r k).1).output = r.1.output := by
  rcases r with ⟨s, e⟩
  cases e with
  | ok u => cases u; exact hk s
  | error e => rfl

lemma fetch_in_dir_output (h : String) (exec : CommandSpec → Nat) (url : String)
    (c : Option String) (s : RunState) :
    ((fetch_in_dir h exec url c s).1).output = s.output := by
  unfold fetch_in_dir
  split
  · exact run_command_output ..
  · split <;> exact run_command_output ..

lemma build_lua_native_output (h : String) (exec : CommandSpec → Nat) (dir : String)
    (s : RunState) : ((build_lua_native h exec dir s).1).output = s.output := by
  simp only [build_lua_native]
  split
  · rfl
  · split <;> exact run_command_output ..

lemma build_lua_target_output (tv cc : Option String) (exec : CommandSpec → Nat)
    (dir : String) (s : RunState) :
    ((build_lua_target tv cc exec dir s).1).output = s.output := by
  simp only [build_lua_target]
  split
  · rfl
  · split <;> exact run_command_output ..

lemma prebuild_stage1_output (out host : String) (fs : List String)
    (exec : CommandSpec → Nat) :
    ((prebuild_stage1 out host fs exec).1).output = [] ∨
    ((prebuild_stage1 out host fs exec).1).output = [debugLine out] := by
  have hglue : ∀ s : RunState,
      (((if (out ++ "/glue.rs") ∈ fs then (s, Except.ok ())
        else andThen (run_command exec s (glue_compile_args out) none) fun s =>
          run_command exec s [out ++ "/glue", out ++ "/glue.rs"] none) :
          RunState × Except BuildError Unit).1).output = s.output := by
    intro s
    split
    · rfl
    · rw [andThen_output _ _ (fun s => run_command_output ..)]
      exact run_command_output ..
  have hrest : ∀ s : RunState,
      (((andThen (run_command exec s ["make", "clean"] (some (out ++ "/lua-5.3.0")))
        fun s => build_lua_native host exec (out ++ "/lua-5.3.0") s).1)).output =
        s.output := by
    intro s
    rw [andThen_output _ _ (fun s => build_lua_native_output ..)]
    exact run_command_output ..
  simp only [prebuild_stage1]
  rw [andThen_output _ _ hglue]
  split
  · left; rfl
  · rw [andThen_output _ _ hrest]
    split
    · left; rfl
    · rw [andThen_output _ _ (fun s => run_command_output ..)]
      rw [fetch_in_dir_output]
      right; rfl

/-- C7: on every run that succeeds, the stdout lines carrying Cargo link
metadata are exactly the statically-link directive and the
native-search-path directive for the archive directory, with no cache
gating; on every failing run, no such directive is printed. -/
theorem c7_link_metadata (out host : String) (tv cc : Option String)
    (fs : List String) (exec : CommandSpec → Nat) :
    ((prebuild out tv cc host fs exec).2 = Except.ok () →
      ((prebuild out tv cc host fs exec).1).output.filter isCargoLine =
        [cargo_link_lib, cargo_link_search out]) ∧
    ((prebuild out tv cc host fs exec).2 ≠ Except.ok () →
      ((prebuild out tv cc host fs exec).1).output.filter isCargoLine = []) := by
  rcases hs : prebuild_stage1 out host fs exec with ⟨s1, r1⟩
  have hfil1 : s1.output.filter isCargoLine = [] := by
    have h := prebuild_stage1_output out host fs exec
    rw [hs] at h
    rcases h with h | h <;> rw [h] <;> simp [isCargoLine_debugLine]
  simp only [prebuild]
  rw [hs]
  cases r1 with
  | error e => simp [andThen, hfil1]
  | ok u =>
    cases u
    simp only [andThen]
    by_cases hc : exec ⟨["make", "clean"], some (out ++ "/lua-5.3.0")⟩ = 0
    · rw [run_command_ok exec s1 ["make", "clean"] (some (out ++ "/lua-5.3.0")) hc]
      simp only [andThen]
      rcases hb : build_lua_target tv cc exec (out ++ "/lua-5.3.0")
          (s1.spawn ⟨["make", "clean"], some (out ++ "/lua-5.3.0")⟩) with ⟨s3, r3⟩
      have ho3 : s3.output = s1.output := by
        have h := build_lua_target_output tv cc exec (out ++ "/lua-5.3.0")
          (s1.spawn ⟨["make", "clean"], some (out ++ "/lua-5.3.0")⟩)
        rw [hb] at h
        simpa [RunState.spawn] using h
      cases r3 with
      | error e => simp [andThen, ho3, hfil1]
      | ok u =>
        cases u
        simp [andThen, printLine, ho3, hfil1, isCargoLine_search,
          show isCargoLine cargo_link_lib = true from rfl]
    · rw [run_command_fail exec s1 ["make", "clean"] (some (out ++ "/lua-5.3.0")) hc]
      simp [andThen, RunState.spawn, hfil1]

/-- Witness for C7 at a concrete successful cold run. -/
theorem c7_witness :
    ((prebuild "/o" (some "a-b-linux") none "linux" [] exec0).1).output.filter
        isCargoLine = [cargo_link_lib, cargo_link_search "/o"] :=
  (c7_link_metadata "/o" "linux" (some "a-b-linux") none [] exec0).1 (by decide)

/-- C9: the glue-helper compilation always invokes the hardcoded `gcc` —
its command is independent of the `CC` override, which can influence only
the final spawned command of a run (the target build): the traces of two
runs differing only in `CC` agree once their last command is dropped. -/
theorem c9_glue_gcc (out host : String) (tv : Option String) (fs : List String)
    (exec : CommandSpec → Nat) (cc cc' : Option String) :
    ((prebuild out tv cc host fs exec).1.trace).dropLast =
      ((prebuild out tv cc' host fs exec).1.trace).dropLast ∧
    (glue_compile_args out).head? = some "gcc" ∧
    ((out ++ "/glue.rs") ∉ fs → (out ++ "/lua-5.3.0/src/liblua.a") ∈ fs →
      glueCompileCmd out ∈ (prebuild out tv cc host fs exec0).1.trace) := by
  refine ⟨?_, rfl, ?_⟩
  · rcases hs : prebuild_stage1 out host fs exec with ⟨s1, r1⟩
    simp only [prebuild]
    rw [hs]
    cases r1 with
    | error e => rfl
    | ok u =>
      cases u
      simp only [andThen]
      by_cases hc : exec ⟨["make", "clean"], some (out ++ "/lua-5.3.0")⟩ = 0
      · rw [run_command_ok exec s1 ["make", "clean"] (some (out ++ "/lua-5.3.0")) hc]
        simp only [andThen]
        cases ht : resolve_target tv with
        | error e =>
          have hbt : ∀ ccx : Option String,
              build_lua_target tv ccx exec (out ++ "/lua-5.3.0")
                  (s1.spawn ⟨["make", "clean"], some (out ++ "/lua-5.3.0")⟩) =
                (s1.spawn ⟨["make", "clean"], some (out ++ "/lua-5.3.0")⟩,
                  Except.error e) := by
            intro ccx
            simp only [build_lua_target, ht]
          rw [hbt cc, hbt cc']
        | ok p =>
          by_cases hq : p = "linux" ∨ p = "freebsd" ∨ p = "bsd"
          · have hbt : ∀ ccx : Option String,
                build_lua_target tv ccx exec (out ++ "/lua-5.3.0")
                    (s1.spawn ⟨["make", "clean"], some (out ++ "/lua-5.3.0")⟩) =
                  run_command exec
                    (s1.spawn ⟨["make", "clean"], some (out ++ "/lua-5.3.0")⟩)
                    ["make", p, "MYCFLAGS=-fPIC"] (some (out ++ "/lua-5.3.0")) := by
              intro ccx
              simp only [build_lua_target, ht, if_pos hq]
            rw [hbt cc, hbt cc']
          · have hbt : ∀ ccx : Option String,
                build_lua_target tv ccx exec (out ++ "/lua-5.3.0")
                    (s1.spawn ⟨["make", "clean"], some (out ++ "/lua-5.3.0")⟩) =
                  run_command exec
                    (s1.spawn ⟨["make", "clean"], some (out ++ "/lua-5.3.0")⟩)
                    ["make", p, "CC=" ++ ccx.getD "gcc"] (some (out ++ "/lua-5.3.0")) := by
              intro ccx
              simp only [build_lua_target, ht, if_neg hq]
            rw [hbt cc, hbt cc']
            by_cases hx1 :
              exec ⟨["make", p, "CC=" ++ cc.getD "gcc"], some (out ++ "/lua-5.3.0")⟩
                = 0 <;>
              by_cases hx2 :
                exec ⟨["make", p, "CC=" ++ cc'.getD "gcc"],
                  some (out ++ "/lua-5.3.0")⟩ = 0 <;>
                simp [run_command, RunState.spawn, printLine, hx1, hx2,
                  List.dropLast_concat]
      · rw [run_command_fail exec s1 ["make", "clean"] (some (out ++ "/lua-5.3.0")) hc]
  · intro hg hl
    rw [prebuild_eq_model]
    unfold prebuildModel stage1Model
    cases ht : resolve_target tv <;> simp [hl, hg]

/-- Witness for C9 at a concrete run with the native library cached and the
glue source absent. -/
theorem c9_witness :
    glueCompileCmd "/o" ∈
      (prebuild "/o" none none "linux" ["/o/lua-5.3.0/src/liblua.a"] exec0).1.trace :=
  (c9_glue_gcc "/o" "linux" none ["/o/lua-5.3.0/src/liblua.a"] exec0 none
    none).2.2 (by decide) (by decide)

end LuaBuild
